import Mathlib

/-!
Verification of the operand-representation core of asmjit
(`src/asmjit/core/operand.h`), shallowly embedded over `Nat`/`Int`.
Machine words are natural numbers together with explicit `% 2^32` /
`% 2^64` reasoning; signed machine integers are `Int` with explicit
two's-complement conversion functions.

The 16-byte `Operand_` value is modelled by four 32-bit words:
`signature`, `baseId` and the 8-byte payload split into its two 32-bit
halves `data0`/`data1` exactly as the C union overlays them on a
little-endian target (`_data32[0] = _mem.indexId = data0`,
`_data32[1] = _mem.offsetLo32 = data1`, `_data64 = data0 + 2^32*data1`).
-/

namespace AsmJit

/-! ## Support helpers (from `support.h`, outside the provided sources) -/

/-- Counting step for trailing zero bits, structural on a fuel argument so
that it evaluates by kernel reduction. -/
def Support.ctzAux : Nat → Nat → Nat
  | 0, _ => 0
  | fuel + 1, n => if n % 2 = 1 then 0 else ctzAux fuel (n / 2) + 1

/-- Modelled from the spec: `Support::constCtz`, the trailing-zero count of a
32-bit mask, named `trailing_zero_count` in the spec (§4.1). The source file
`support.h` is not under the provided sources. -/
def Support.constCtz (n : Nat) : Nat := Support.ctzAux 32 n

/-- Modelled from the spec: `Support::bitMaskFromBool<uint32_t>` — all-ones
32-bit word for `true`, zero for `false` (used by `hasOffset`, §4.4). -/
def Support.bitMaskFromBool (b : Bool) : Nat := if b then 0xFFFFFFFF else 0

/-- Modelled from the spec: `Support::isBetween` — inclusive range test
(§4.2, "kind is in the contiguous register..memory sub-range"). -/
def Support.isBetween (x a b : Nat) : Bool := decide (a ≤ x) && decide (x ≤ b)

/-- Modelled from the spec: `Support::isInt8` — two's-complement signed
8-bit range test (§4.5 fit predicates). -/
def Support.isInt8 (x : Int) : Bool := decide (-128 ≤ x) && decide (x ≤ 127)

/-- Modelled from the spec: `Support::isUInt8`. -/
def Support.isUInt8 (x : Int) : Bool := decide (0 ≤ x) && decide (x ≤ 255)

/-- Modelled from the spec: `Support::isInt16`. -/
def Support.isInt16 (x : Int) : Bool := decide (-32768 ≤ x) && decide (x ≤ 32767)

/-- Modelled from the spec: `Support::isUInt16`. -/
def Support.isUInt16 (x : Int) : Bool := decide (0 ≤ x) && decide (x ≤ 65535)

/-- Modelled from the spec: `Support::isInt32`. -/
def Support.isInt32 (x : Int) : Bool :=
  decide (-2147483648 ≤ x) && decide (x ≤ 2147483647)

/-- Modelled from the spec: `Support::isUInt32`. -/
def Support.isUInt32 (x : Int) : Bool := decide (0 ≤ x) && decide (x ≤ 4294967295)

/-- Value of a 32-bit word reinterpreted as a signed `int32_t`. -/
def toInt32 (n : Nat) : Int :=
  if n < 0x80000000 then (n : Int) else (n : Int) - 0x100000000

/-- Value of a 64-bit word reinterpreted as a signed `int64_t`. -/
def toInt64 (n : Nat) : Int :=
  if n < 0x8000000000000000 then (n : Int) else (n : Int) - 0x10000000000000000

/-- Conversion of a signed integer to `uint32_t` (two's-complement wrap). -/
def toUInt32 (x : Int) : Nat := (x % 0x100000000).toNat

/-- Conversion of a signed integer to `uint64_t` (two's-complement wrap). -/
def toUInt64 (x : Int) : Nat := (x % 0x10000000000000000).toNat

/-- Bitwise complement on a 32-bit word (C `~` on `uint32_t`). -/
def not32 (x : Nat) : Nat := 0xFFFFFFFF ^^^ x

/-- Modelled from the spec: `Globals::kInvalidId`, the global invalid-id
sentinel `0xFFFFFFFF` ("no id"), defined in the repository outside the
provided sources; the spec fixes `V_MAX = invalid-id sentinel - 1`. -/
def kInvalidId : Nat := 0xFFFFFFFF

/-! ## Operand type and signature constants (`Operand_::OpType`,
`Operand_::SignatureBits`) -/

def kOpNone : Nat := 0
def kOpReg : Nat := 1
def kOpMem : Nat := 2
def kOpImm : Nat := 3
def kOpLabel : Nat := 4

def kSignatureOpShift : Nat := 0
def kSignatureOpMask : Nat := 0x07 <<< kSignatureOpShift
def kSignatureRegTypeShift : Nat := 3
def kSignatureRegTypeMask : Nat := 0x1F <<< kSignatureRegTypeShift
def kSignatureRegGroupShift : Nat := 8
def kSignatureRegGroupMask : Nat := 0x0F <<< kSignatureRegGroupShift
def kSignatureMemBaseTypeShift : Nat := 3
def kSignatureMemBaseTypeMask : Nat := 0x1F <<< kSignatureMemBaseTypeShift
def kSignatureMemIndexTypeShift : Nat := 8
def kSignatureMemIndexTypeMask : Nat := 0x1F <<< kSignatureMemIndexTypeShift
def kSignatureMemBaseIndexShift : Nat := 3
def kSignatureMemBaseIndexMask : Nat := 0x3FF <<< kSignatureMemBaseIndexShift
def kSignatureMemAddrTypeShift : Nat := 13
def kSignatureMemAddrTypeMask : Nat := 0x03 <<< kSignatureMemAddrTypeShift
def kSignatureMemRegHomeShift : Nat := 15
def kSignatureMemRegHomeFlag : Nat := 0x01 <<< kSignatureMemRegHomeShift
def kSignatureSizeShift : Nat := 24
def kSignatureSizeMask : Nat := 0xFF <<< kSignatureSizeShift

/-! ## VirtId constants and conversions (`Operand_::VirtIdConstants`),
with `uint32_t` wraparound made explicit -/

def kVirtIdMin : Nat := 256
def kVirtIdMax : Nat := kInvalidId - 1
def kVirtIdCount : Nat := kVirtIdMax - kVirtIdMin + 1

/-- Source: `isVirtId(id) { return id - kVirtIdMin < uint32_t(kVirtIdCount); }`
with the `uint32_t` subtraction wrapping modulo `2^32`. -/
def isVirtId (id : Nat) : Bool :=
  decide (((id + 0x100000000) - kVirtIdMin) % 0x100000000 < kVirtIdCount)

/-- Source: `indexToVirtId(id) { return id + kVirtIdMin; }` on `uint32_t`. -/
def indexToVirtId (id : Nat) : Nat := (id + kVirtIdMin) % 0x100000000

/-- Source: `virtIdToIndex(id) { return id - kVirtIdMin; }` on `uint32_t`. -/
def virtIdToIndex (id : Nat) : Nat := ((id + 0x100000000) - kVirtIdMin) % 0x100000000

/-! ## The 16-byte operand value -/

/-- The constructor-less 16-byte `Operand_` value: 32-bit `signature` and
`baseId` words plus the 8-byte payload as two 32-bit words. `data0` is
`_data32[0]` (= `_mem.indexId`), `data1` is `_data32[1]`
(= `_mem.offsetLo32`); `_data64 = data0 + 2^32 * data1`. -/
structure Operand_ where
  signature : Nat
  baseId : Nat
  data0 : Nat
  data1 : Nat
deriving DecidableEq, Repr

/-- The 64-bit view `_data64` of the payload union. -/
def Operand_.data64 (op : Operand_) : Nat := op.data0 + 0x100000000 * op.data1

/-- Generic field extraction `Operand_::_getSignaturePart<mask>`. -/
def getSignaturePart (mask sig : Nat) : Nat :=
  (sig >>> Support.constCtz mask) &&& (mask >>> Support.constCtz mask)

/-- Generic field update `Operand_::_setSignaturePart<mask>` (the debug
assert requires the value to fit the field; theorems carry it as a
hypothesis). -/
def setSignaturePart (mask value sig : Nat) : Nat :=
  (sig &&& not32 mask) ||| (value <<< Support.constCtz mask)

def Operand_.opType (op : Operand_) : Nat :=
  getSignaturePart kSignatureOpMask op.signature

def Operand_.isNone (op : Operand_) : Bool := decide (op.signature = 0)
def Operand_.isReg (op : Operand_) : Bool := decide (op.opType = kOpReg)
def Operand_.isMem (op : Operand_) : Bool := decide (op.opType = kOpMem)
def Operand_.isImm (op : Operand_) : Bool := decide (op.opType = kOpImm)
def Operand_.isLabel (op : Operand_) : Bool := decide (op.opType = kOpLabel)

/-- Source: `isPhysReg() { return isReg() && _baseId < 0xFFu; }` -/
def Operand_.isPhysReg (op : Operand_) : Bool :=
  op.isReg && decide (op.baseId < 0xFF)

/-- Source: `isVirtReg() { return isReg() && _baseId > 0xFFu; }` -/
def Operand_.isVirtReg (op : Operand_) : Bool :=
  op.isReg && decide (op.baseId > 0xFF)

def Operand_.size (op : Operand_) : Nat :=
  getSignaturePart kSignatureSizeMask op.signature

/-- Source: `isRegOrMem() { return Support::isBetween(opType(), kOpReg, kOpMem); }` -/
def Operand_.isRegOrMem (op : Operand_) : Bool :=
  Support.isBetween op.opType kOpReg kOpMem

/-- Source: `Operand_::reset()` — sets `_signature`, `_baseId` and
`_data64` all to zero, for any prior contents. -/
def Operand_.reset (_op : Operand_) : Operand_ :=
  { signature := 0, baseId := 0, data0 := 0, data1 := 0 }

/-- Default-constructed `Operand()` — the "none" operand, all zeros. -/
def Operand.defaultNone : Operand_ :=
  { signature := kOpNone, baseId := 0, data0 := 0, data1 := 0 }

/-! ## Labels -/

/-- Source: `Label(uint32_t id)` — `Operand(Globals::Init, kOpLabel, id, 0, 0)`. -/
def Label.ofId (id : Nat) : Operand_ :=
  { signature := kOpLabel, baseId := id, data0 := 0, data1 := 0 }

/-- Default-constructed `Label()` — id is the invalid sentinel. -/
def Label.defaultLabel : Operand_ := Label.ofId kInvalidId

/-- Source: `Label::reset()` — `_signature = kOpLabel; _baseId =
Globals::kInvalidId; _data64 = 0;` (this override shadows
`Operand_::reset` for `Label` values). -/
def Label.reset (_op : Operand_) : Operand_ :=
  { signature := kOpLabel, baseId := kInvalidId, data0 := 0, data1 := 0 }

/-! ## Registers -/

def BaseReg.kIdBad : Nat := 0xFF

/-- Source: `BaseReg(uint32_t signature, uint32_t rId)` —
`Operand(Globals::Init, signature, rId, 0, 0)`. -/
def BaseReg.ofSignatureAndId (signature rId : Nat) : Operand_ :=
  { signature := signature, baseId := rId, data0 := 0, data1 := 0 }

/-- Default-constructed `BaseReg()` — signature `kOpReg`, id `kIdBad`. -/
def BaseReg.defaultReg : Operand_ := BaseReg.ofSignatureAndId kOpReg BaseReg.kIdBad

/-- Source: `BaseReg::isPhysReg() { return _baseId < kIdBad; }` -/
def BaseReg.isPhysReg (op : Operand_) : Bool := decide (op.baseId < BaseReg.kIdBad)

/-- Source: `BaseReg::isVirtReg() { return _baseId > kIdBad; }` -/
def BaseReg.isVirtReg (op : Operand_) : Bool := decide (op.baseId > BaseReg.kIdBad)

def BaseReg.regType (op : Operand_) : Nat :=
  getSignaturePart kSignatureRegTypeMask op.signature

def BaseReg.group (op : Operand_) : Nat :=
  getSignaturePart kSignatureRegGroupMask op.signature

/-! ## The compact 8-byte register-only value (`RegOnly`) -/

structure RegOnly where
  signature : Nat
  id : Nat
deriving DecidableEq, Repr

/-- Source: `RegOnly::init(const BaseReg& reg)` — copies signature and id. -/
def RegOnly.initFromReg (r : Operand_) : RegOnly :=
  { signature := r.signature, id := r.baseId }

/-- Source: `RegOnly::toReg<RegT>()` — `RegT(_signature, _id)`, a full
register value with an all-zero payload. -/
def RegOnly.toReg (r : RegOnly) : Operand_ := BaseReg.ofSignatureAndId r.signature r.id

def RegOnly.isPhysReg (r : RegOnly) : Bool := decide (r.id < BaseReg.kIdBad)
def RegOnly.isVirtReg (r : RegOnly) : Bool := decide (r.id > BaseReg.kIdBad)

def RegOnly.regType (r : RegOnly) : Nat :=
  getSignaturePart kSignatureRegTypeMask r.signature

def RegOnly.group (r : RegOnly) : Nat :=
  getSignaturePart kSignatureRegGroupMask r.signature

/-! ## Memory operands (`BaseMem`) -/

/-- The decomposed memory-operand fields (`BaseMem::Decomposed`). -/
structure Decomposed where
  baseType : Nat
  baseId : Nat
  indexType : Nat
  indexId : Nat
  offset : Int
  size : Nat
  flags : Nat
deriving Repr

/-- Source: `BaseMem(const Decomposed& d)` — packs
`kOpMem | (baseType << 3) | (indexType << 8) | (size << 24) | flags`
into the signature, `baseId` into the id word, `indexId` and
`uint32_t(offset)` into the payload. -/
def BaseMem.ofDecomposed (d : Decomposed) : Operand_ :=
  { signature := kOpMem ||| (d.baseType <<< kSignatureMemBaseTypeShift)
                        ||| (d.indexType <<< kSignatureMemIndexTypeShift)
                        ||| (d.size <<< kSignatureSizeShift)
                        ||| d.flags
    baseId := d.baseId
    data0 := d.indexId
    data1 := toUInt32 d.offset }

def BaseMem.baseType (op : Operand_) : Nat :=
  getSignaturePart kSignatureMemBaseTypeMask op.signature

def BaseMem.indexType (op : Operand_) : Nat :=
  getSignaturePart kSignatureMemIndexTypeMask op.signature

def BaseMem.baseId (op : Operand_) : Nat := op.baseId

def BaseMem.indexId (op : Operand_) : Nat := op.data0

/-- Source: `offsetLo32() { return int32_t(_mem.offsetLo32); }` -/
def BaseMem.offsetLo32 (op : Operand_) : Int := toInt32 op.data1

/-- Source: `isOffset64Bit() { return baseType() == 0; }` -/
def BaseMem.isOffset64Bit (op : Operand_) : Bool :=
  decide (BaseMem.baseType op = 0)

/-- Source: `hasOffset()` —
`(_mem.offsetLo32 | uint32_t(_baseId & bitMaskFromBool(isOffset64Bit()))) != 0`. -/
def BaseMem.hasOffset (op : Operand_) : Bool :=
  decide ((op.data1 ||| (op.baseId &&& Support.bitMaskFromBool (BaseMem.isOffset64Bit op))) ≠ 0)

/-- Source: `BaseMem::addOffset(int64_t offset)`. In 64-bit-absolute mode the
full 64-bit value `offsetLo32 | (baseId << 32)` is added to `offset` as an
`int64_t` (two's-complement wrap) and split back; in based mode only the low
32-bit word is adjusted, wrapping modulo `2^32`. -/
def BaseMem.addOffset (op : Operand_) (offset : Int) : Operand_ :=
  if BaseMem.isOffset64Bit op then
    let result : Nat := toUInt64 (offset + toInt64 (op.data1 ||| (op.baseId <<< 32)))
    { op with data1 := result &&& 0xFFFFFFFF, baseId := result >>> 32 }
  else
    { op with data1 := (op.data1 + (toUInt64 offset &&& 0xFFFFFFFF)) % 0x100000000 }

/-! ## Immediate operands (`Imm`) -/

/-- Source: `Imm(int64_t val)` — `Operand(Globals::Init, kOpImm, 0,
unpackU32At0(val), unpackU32At1(val))`, i.e. `_data64 = uint64_t(val)`. -/
def Imm.ofInt (val : Int) : Operand_ :=
  { signature := kOpImm, baseId := 0
    data0 := toUInt64 val % 0x100000000
    data1 := toUInt64 val / 0x100000000 }

/-- Source: `Imm::i64() { return int64_t(_data64); }` -/
def Imm.i64 (op : Operand_) : Int := toInt64 op.data64

def Imm.isInt8 (op : Operand_) : Bool := Support.isInt8 (Imm.i64 op)
def Imm.isUInt8 (op : Operand_) : Bool := Support.isUInt8 (Imm.i64 op)
def Imm.isInt16 (op : Operand_) : Bool := Support.isInt16 (Imm.i64 op)
def Imm.isUInt16 (op : Operand_) : Bool := Support.isUInt16 (Imm.i64 op)
def Imm.isInt32 (op : Operand_) : Bool := Support.isInt32 (Imm.i64 op)
def Imm.isUInt32 (op : Operand_) : Bool := Support.isUInt32 (Imm.i64 op)

/-! ## Bit-manipulation groundwork -/

/-- Field extraction is division and remainder by the field's powers of two. -/
theorem getPart_arith (mask s w x : Nat) (h1 : Support.constCtz mask = s)
    (h2 : mask >>> s = 2 ^ w - 1) :
    getSignaturePart mask x = x / 2 ^ s % 2 ^ w := by
  unfold getSignaturePart
  rw [h1, h2, Nat.and_pow_two_sub_one_eq_mod, Nat.shiftRight_eq_div_pow]

theorem gp_op (x : Nat) : getSignaturePart kSignatureOpMask x = x / 2 ^ 0 % 2 ^ 3 :=
  getPart_arith _ 0 3 x (by decide) (by decide)

theorem gp_regType (x : Nat) :
    getSignaturePart kSignatureRegTypeMask x = x / 2 ^ 3 % 2 ^ 5 :=
  getPart_arith _ 3 5 x (by decide) (by decide)

theorem gp_regGroup (x : Nat) :
    getSignaturePart kSignatureRegGroupMask x = x / 2 ^ 8 % 2 ^ 4 :=
  getPart_arith _ 8 4 x (by decide) (by decide)

theorem gp_memBaseType (x : Nat) :
    getSignaturePart kSignatureMemBaseTypeMask x = x / 2 ^ 3 % 2 ^ 5 :=
  getPart_arith _ 3 5 x (by decide) (by decide)

theorem gp_memIndexType (x : Nat) :
    getSignaturePart kSignatureMemIndexTypeMask x = x / 2 ^ 8 % 2 ^ 5 :=
  getPart_arith _ 8 5 x (by decide) (by decide)

theorem gp_memAddrType (x : Nat) :
    getSignaturePart kSignatureMemAddrTypeMask x = x / 2 ^ 13 % 2 ^ 2 :=
  getPart_arith _ 13 2 x (by decide) (by decide)

theorem gp_size (x : Nat) :
    getSignaturePart kSignatureSizeMask x = x / 2 ^ 24 % 2 ^ 8 :=
  getPart_arith _ 24 8 x (by decide) (by decide)

/-! ## C7: kind adjacency and isRegOrMem -/

/-- Claim C7: the numeric operand-kind value of every memory operand equals the
kind value of a register operand plus one, and `isRegOrMem` returns true
exactly when the operand's kind is register or memory (false for none,
immediate and label). -/
theorem memKindIsRegKindPlusOne :
    kOpMem = kOpReg + 1 ∧
    (∀ m r : Operand_, m.isMem = true → r.isReg = true →
      m.opType = r.opType + 1) ∧
    (∀ op : Operand_, op.isRegOrMem = true ↔ (op.isReg = true ∨ op.isMem = true)) := by
  refine ⟨rfl, ?_, ?_⟩
  · intro m r hm hr
    simp only [Operand_.isMem, Operand_.isReg, decide_eq_true_eq] at hm hr
    rw [hm, hr]
    decide
  · intro op
    simp only [Operand_.isRegOrMem, Operand_.isReg, Operand_.isMem, Support.isBetween,
      kOpReg, kOpMem, Bool.and_eq_true, decide_eq_true_eq]
    omega

/-- Witness for C7 at a concrete memory operand and a concrete register. -/
theorem memKindIsRegKindPlusOne_witness :
    (BaseMem.ofDecomposed ⟨0, 0, 0, 0, 0, 0, 0⟩).opType =
      Operand_.opType BaseReg.defaultReg + 1 :=
  memKindIsRegKindPlusOne.2.1 _ _ (by decide) (by decide)

/-! ## C8: immediate fit predicates -/

/-- Claim C8: for the listed literal immediate payloads, each fit predicate
among `isInt8/isUInt8/isInt16/isUInt16/isInt32/isUInt32` answers exactly
as two's-complement range rules dictate for its width. -/
theorem immFitPredicates :
    (Imm.isInt8 (Imm.ofInt (-129)) = false ∧ Imm.isUInt8 (Imm.ofInt (-129)) = false ∧
     Imm.isInt16 (Imm.ofInt (-129)) = true ∧ Imm.isUInt16 (Imm.ofInt (-129)) = false ∧
     Imm.isInt32 (Imm.ofInt (-129)) = true ∧ Imm.isUInt32 (Imm.ofInt (-129)) = false) ∧
    (Imm.isInt8 (Imm.ofInt (-128)) = true ∧ Imm.isUInt8 (Imm.ofInt (-128)) = false ∧
     Imm.isInt16 (Imm.ofInt (-128)) = true ∧ Imm.isUInt16 (Imm.ofInt (-128)) = false ∧
     Imm.isInt32 (Imm.ofInt (-128)) = true ∧ Imm.isUInt32 (Imm.ofInt (-128)) = false) ∧
    (Imm.isInt8 (Imm.ofInt 127) = true ∧ Imm.isUInt8 (Imm.ofInt 127) = true ∧
     Imm.isInt16 (Imm.ofInt 127) = true ∧ Imm.isUInt16 (Imm.ofInt 127) = true ∧
     Imm.isInt32 (Imm.ofInt 127) = true ∧ Imm.isUInt32 (Imm.ofInt 127) = true) ∧
    (Imm.isInt8 (Imm.ofInt 128) = false ∧ Imm.isUInt8 (Imm.ofInt 128) = true ∧
     Imm.isInt16 (Imm.ofInt 128) = true ∧ Imm.isUInt16 (Imm.ofInt 128) = true ∧
     Imm.isInt32 (Imm.ofInt 128) = true ∧ Imm.isUInt32 (Imm.ofInt 128) = true) ∧
    (Imm.isInt8 (Imm.ofInt 255) = false ∧ Imm.isUInt8 (Imm.ofInt 255) = true ∧
     Imm.isInt16 (Imm.ofInt 255) = true ∧ Imm.isUInt16 (Imm.ofInt 255) = true ∧
     Imm.isInt32 (Imm.ofInt 255) = true ∧ Imm.isUInt32 (Imm.ofInt 255) = true) ∧
    (Imm.isInt8 (Imm.ofInt 256) = false ∧ Imm.isUInt8 (Imm.ofInt 256) = false ∧
     Imm.isInt16 (Imm.ofInt 256) = true ∧ Imm.isUInt16 (Imm.ofInt 256) = true ∧
     Imm.isInt32 (Imm.ofInt 256) = true ∧ Imm.isUInt32 (Imm.ofInt 256) = true) ∧
    (Imm.isInt8 (Imm.ofInt 65535) = false ∧ Imm.isUInt8 (Imm.ofInt 65535) = false ∧
     Imm.isInt16 (Imm.ofInt 65535) = false ∧ Imm.isUInt16 (Imm.ofInt 65535) = true ∧
     Imm.isInt32 (Imm.ofInt 65535) = true ∧ Imm.isUInt32 (Imm.ofInt 65535) = true) ∧
    (Imm.isInt8 (Imm.ofInt 65536) = false ∧ Imm.isUInt8 (Imm.ofInt 65536) = false ∧
     Imm.isInt16 (Imm.ofInt 65536) = false ∧ Imm.isUInt16 (Imm.ofInt 65536) = false ∧
     Imm.isInt32 (Imm.ofInt 65536) = true ∧ Imm.isUInt32 (Imm.ofInt 65536) = true) ∧
    (Imm.isInt8 (Imm.ofInt 2147483647) = false ∧ Imm.isUInt8 (Imm.ofInt 2147483647) = false ∧
     Imm.isInt16 (Imm.ofInt 2147483647) = false ∧ Imm.isUInt16 (Imm.ofInt 2147483647) = false ∧
     Imm.isInt32 (Imm.ofInt 2147483647) = true ∧ Imm.isUInt32 (Imm.ofInt 2147483647) = true) ∧
    (Imm.isInt8 (Imm.ofInt 2147483648) = false ∧ Imm.isUInt8 (Imm.ofInt 2147483648) = false ∧
     Imm.isInt16 (Imm.ofInt 2147483648) = false ∧ Imm.isUInt16 (Imm.ofInt 2147483648) = false ∧
     Imm.isInt32 (Imm.ofInt 2147483648) = false ∧ Imm.isUInt32 (Imm.ofInt 2147483648) = true) := by
  decide

/-! ## C10: physical/virtual register classification thresholds -/

/-- Claim C10: for a register-kind operand, `isPhysReg` holds exactly when
`baseId < 255` and `isVirtReg` exactly when `baseId > 255`; at the bad-id
sentinel 255 (the id of a default-constructed register) neither holds,
while at the global invalid-id sentinel `0xFFFFFFFF` the operand counts as
a virtual register. -/
theorem physVirtClassification :
    (∀ op : Operand_, op.isReg = true →
      ((op.isPhysReg = true ↔ op.baseId < 255) ∧
       (op.isVirtReg = true ↔ op.baseId > 255) ∧
       (op.baseId = 255 → op.isPhysReg = false ∧ op.isVirtReg = false) ∧
       (op.baseId = kInvalidId → op.isVirtReg = true))) ∧
    Operand_.isPhysReg BaseReg.defaultReg = false ∧
    Operand_.isVirtReg BaseReg.defaultReg = false := by
  refine ⟨?_, by decide, by decide⟩
  intro op hreg
  have h1 : op.isPhysReg = decide (op.baseId < 0xFF) := by
    simp [Operand_.isPhysReg, hreg]
  have h2 : op.isVirtReg = decide (op.baseId > 0xFF) := by
    simp [Operand_.isVirtReg, hreg]
  rw [h1, h2]
  simp only [decide_eq_true_eq, decide_eq_false_iff_not, kInvalidId]
  exact ⟨trivial, trivial, by omega, by omega⟩

/-- Witness for C10 at a register operand with the invalid-id sentinel. -/
theorem physVirtClassification_witness :
    Operand_.isVirtReg (BaseReg.ofSignatureAndId kOpReg kInvalidId) = true :=
  ((physVirtClassification.1 _ (by decide)).2.2.2) rfl

/-! ## C4: register id space disjointness and index conversions -/

/-- Two words or to zero exactly when both are zero. -/
theorem lor_eq_zero_iff (a b : Nat) : a ||| b = 0 ↔ a = 0 ∧ b = 0 := by
  constructor
  · intro h
    constructor <;>
      [apply Nat.eq_of_testBit_eq; apply Nat.eq_of_testBit_eq] <;>
      intro i <;>
      · have hbit := congrArg (fun x => Nat.testBit x i) h
        simp only [Nat.testBit_or, Nat.zero_testBit, Bool.or_eq_false_iff] at hbit
        simp [hbit.1, hbit.2]
  · rintro ⟨rfl, rfl⟩
    rfl

/-- Claim C4: `isPhysReg` and `isVirtReg` never both hold; over the physical and
virtual id bands each classification is exclusive; and converting a
zero-based allocator index to a virtual id and back recovers the index for
the whole valid range. -/
theorem regIdSpaceDisjoint :
    (∀ op : Operand_, ¬(op.isPhysReg = true ∧ op.isVirtReg = true)) ∧
    (∀ op : Operand_, op.isReg = true →
      (op.baseId < 255 → op.isPhysReg = true ∧ op.isVirtReg = false) ∧
      (kVirtIdMin ≤ op.baseId → op.baseId ≤ kVirtIdMax →
        op.isVirtReg = true ∧ op.isPhysReg = false)) ∧
    (∀ i : Nat, i < kVirtIdCount → virtIdToIndex (indexToVirtId i) = i) := by
  refine ⟨?_, ?_, ?_⟩
  · rintro op ⟨h1, h2⟩
    simp only [Operand_.isPhysReg, Operand_.isVirtReg, Bool.and_eq_true,
      decide_eq_true_eq] at h1 h2
    omega
  · intro op hreg
    simp only [Operand_.isPhysReg, Operand_.isVirtReg, hreg, Bool.true_and,
      kVirtIdMin, kVirtIdMax, kInvalidId, decide_eq_true_eq,
      decide_eq_false_iff_not]
    omega
  · intro i hi
    simp only [kVirtIdCount, kVirtIdMax, kVirtIdMin, kInvalidId] at hi
    simp only [virtIdToIndex, indexToVirtId, kVirtIdMin]
    omega

/-- Witness for C4: a concrete index survives the round trip. -/
theorem regIdSpaceDisjoint_witness : virtIdToIndex (indexToVirtId 42) = 42 :=
  regIdSpaceDisjoint.2.2 42 (by decide)

/-! ## C5: hasOffset across the two offset-encoding modes -/

/-- Claim C5: `hasOffset` holds iff the low offset word is nonzero or — only in
64-bit-absolute mode — the high word (`baseId`) is nonzero; in based mode a
nonzero `baseId` alone never makes it true. -/
theorem hasOffsetModes :
    ∀ op : Operand_, op.isMem = true → op.baseId < 2 ^ 32 →
      (BaseMem.hasOffset op = true ↔
        (op.data1 ≠ 0 ∨ (BaseMem.isOffset64Bit op = true ∧ op.baseId ≠ 0))) := by
  intro op _ hb
  by_cases h64 : BaseMem.isOffset64Bit op = true
  · have hmask : op.baseId &&& 0xFFFFFFFF = op.baseId := by
      have h := Nat.and_pow_two_sub_one_of_lt_two_pow hb
      norm_num at h
      exact h
    simp only [BaseMem.hasOffset, h64, Support.bitMaskFromBool, if_true,
      hmask, decide_eq_true_eq, ne_eq, lor_eq_zero_iff, true_and]
    tauto
  · have h64f : BaseMem.isOffset64Bit op = false := by
      simpa using h64
    simp [BaseMem.hasOffset, h64f, Support.bitMaskFromBool]

/-- Witness for C5: a based memory operand with zero displacement but a
nonzero base id reports no offset. -/
theorem hasOffsetModes_witness :
    BaseMem.hasOffset (BaseMem.ofDecomposed ⟨6, 3, 0, 0, 0, 0, 0⟩) = false := by
  have h := hasOffsetModes (BaseMem.ofDecomposed ⟨6, 3, 0, 0, 0, 0, 0⟩)
    (by decide) (by decide)
  simp only [show BaseMem.isOffset64Bit (BaseMem.ofDecomposed ⟨6, 3, 0, 0, 0, 0, 0⟩)
      = false by decide] at h
  simp only [show (BaseMem.ofDecomposed ⟨6, 3, 0, 0, 0, 0, 0⟩).data1 = 0 by decide] at h
  simp at h
  exact h

/-! ## C2 (corrected): reset and the none operand -/

/-- Claim C2 counterexample: the claim "calling reset() on an operand of any kind
yields the all-zero none pattern and isNone holds" fails at a concrete
label: `Label::reset` produces signature `kOpLabel` and the invalid-id
sentinel, which is not the none operand and for which `isNone` is false. -/
theorem labelResetNotNone :
    ¬(Label.reset Label.defaultLabel = Operand.defaultNone ∧
      Operand_.isNone (Label.reset Label.defaultLabel) = true) := by
  decide

/-- Claim C2 amended: the generic `Operand_::reset` (inherited by `Operand`)
restores any operand, of any kind, to the all-zero none pattern, bit-for-bit
equal to a default-constructed none operand, with `isNone` holding for the
result; the `Label::reset` override is the exception — it restores the
default label state (kind label, invalid-id sentinel, zero payload) rather
than the none pattern. -/
theorem resetYieldsNone :
    (∀ op : Operand_, Operand_.reset op = Operand.defaultNone ∧
      Operand_.isNone (Operand_.reset op) = true ∧
      Operand_.isNone Operand.defaultNone = true) ∧
    (∀ op : Operand_, Label.reset op = Label.defaultLabel) :=
  ⟨fun _ => ⟨rfl, rfl, rfl⟩, fun _ => rfl⟩

/-! ## C9: compact register-only form versus full register values -/

/-- Claim C9: converting a full register value whose payload is zero (as every
register constructor guarantees) to the compact 8-byte `RegOnly` form and
back is the identity, and the compact form answers signature, id, type,
group and physical/virtual classification exactly as the full value does. -/
theorem regOnlyRoundTrip :
    ∀ r : Operand_, r.data0 = 0 → r.data1 = 0 →
      (RegOnly.toReg (RegOnly.initFromReg r) = r ∧
       (RegOnly.initFromReg r).signature = r.signature ∧
       (RegOnly.initFromReg r).id = r.baseId ∧
       RegOnly.regType (RegOnly.initFromReg r) = BaseReg.regType r ∧
       RegOnly.group (RegOnly.initFromReg r) = BaseReg.group r ∧
       RegOnly.isPhysReg (RegOnly.initFromReg r) = BaseReg.isPhysReg r ∧
       RegOnly.isVirtReg (RegOnly.initFromReg r) = BaseReg.isVirtReg r) := by
  intro r h0 h1
  refine ⟨?_, rfl, rfl, rfl, rfl, rfl, rfl⟩
  cases r with
  | mk s b d0 d1 =>
    simp only [Operand_.data0] at h0
    simp only [Operand_.data1] at h1
    subst h0
    subst h1
    rfl

/-- Witness for C9 at a concrete register signature and id. -/
theorem regOnlyRoundTrip_witness :
    RegOnly.toReg (RegOnly.initFromReg (BaseReg.ofSignatureAndId 41 7)) =
      BaseReg.ofSignatureAndId 41 7 :=
  (regOnlyRoundTrip (BaseReg.ofSignatureAndId 41 7) rfl rfl).1

/-! ## C1: addOffset duality between absolute and based mode -/

/-- Claim C1: `addOffset` branches on the offset-encoding mode. With no base
present (64-bit-absolute mode) it adds the delta into the full 64-bit
address held across the low payload word and the `baseId` word, modulo
`2^64`, splitting the sum back correctly; with a base present it adds the
delta into the low 32-bit word only, wrapping modulo `2^32`, and leaves
`baseId` untouched. -/
theorem addOffsetModes :
    ∀ (op : Operand_) (k : Int), op.isMem = true →
      op.baseId < 2 ^ 32 → op.data1 < 2 ^ 32 →
      -(2 ^ 63) ≤ k → k < 2 ^ 63 →
      ((BaseMem.isOffset64Bit op = true →
        (BaseMem.addOffset op k).data1 =
          (((op.data1 : Int) + 2 ^ 32 * (op.baseId : Int) + k) % (2 ^ 64)).toNat % 2 ^ 32 ∧
        (BaseMem.addOffset op k).baseId =
          (((op.data1 : Int) + 2 ^ 32 * (op.baseId : Int) + k) % (2 ^ 64)).toNat / 2 ^ 32 ∧
        (BaseMem.addOffset op k).data0 = op.data0 ∧
        (BaseMem.addOffset op k).signature = op.signature) ∧
       (BaseMem.isOffset64Bit op = false →
        (BaseMem.addOffset op k).data1 = (((op.data1 : Int) + k) % (2 ^ 32)).toNat ∧
        (BaseMem.addOffset op k).baseId = op.baseId ∧
        (BaseMem.addOffset op k).data0 = op.data0 ∧
        (BaseMem.addOffset op k).signature = op.signature)) := by
  intro op k _ hb hd hk1 hk2
  have e64 : ((2 : Int) ^ 64) = 18446744073709551616 := by norm_num
  have e32 : ((2 : Int) ^ 32) = 4294967296 := by norm_num
  constructor
  · intro h64
    have hOr : op.data1 ||| op.baseId <<< 32 = 2 ^ 32 * op.baseId + op.data1 := by
      rw [Nat.shiftLeft_eq, Nat.or_comm, mul_comm op.baseId (2 ^ 32),
        ← Nat.mul_add_lt_is_or hd op.baseId]
    have hres : toUInt64 (k + toInt64 (2 ^ 32 * op.baseId + op.data1)) =
        (((op.data1 : Int) + 2 ^ 32 * (op.baseId : Int) + k) % (2 ^ 64)).toNat := by
      simp only [toUInt64, toInt64, e64, e32]
      split <;> omega
    have hnum : (0xFFFFFFFF : Nat) = 2 ^ 32 - 1 := by norm_num
    simp only [BaseMem.addOffset, h64, if_true, hOr, hres]
    refine ⟨?_, ?_, trivial, trivial⟩
    · simp only [hnum, Nat.and_pow_two_sub_one_eq_mod]
    · simp only [Nat.shiftRight_eq_div_pow]
  · intro h64f
    have hnum : (0xFFFFFFFF : Nat) = 2 ^ 32 - 1 := by norm_num
    have hmod : toUInt64 k &&& 0xFFFFFFFF = (k % 4294967296).toNat := by
      simp only [toUInt64, hnum, Nat.and_pow_two_sub_one_eq_mod]
      omega
    simp [BaseMem.addOffset, h64f, hmod, e32]
    omega

/-- Witness for C1: adding 1 to the absolute address `2^64 - 1` wraps to
zero across both words. -/
theorem addOffsetModes_witness :
    (BaseMem.addOffset (BaseMem.ofDecomposed ⟨0, 0xFFFFFFFF, 0, 0, -1, 0, 0⟩) 1).data1 = 0 ∧
    (BaseMem.addOffset (BaseMem.ofDecomposed ⟨0, 0xFFFFFFFF, 0, 0, -1, 0, 0⟩) 1).baseId = 0 := by
  have h := (addOffsetModes (BaseMem.ofDecomposed ⟨0, 0xFFFFFFFF, 0, 0, -1, 0, 0⟩) 1
    (by decide) (by decide) (by decide) (by decide) (by decide)).1 (by decide)
  refine ⟨?_, ?_⟩
  · rw [h.1]
    decide
  · rw [h.2.1]
    decide

/-! ## Groundwork: masks, complements and shifted chunks as arithmetic -/

/-- Shifting distributes over bitwise and. -/
theorem shiftLeft_and (a b k : Nat) : (a <<< k) &&& (b <<< k) = (a &&& b) <<< k := by
  apply Nat.eq_of_testBit_eq
  intro i
  simp only [Nat.testBit_and, Nat.testBit_shiftLeft]
  by_cases h : k ≤ i <;> simp [h, Nat.testBit_and]

/-- Clearing a contiguous field through the 32-bit complement keeps exactly
the bits below and above the field. -/
theorem and_not32_mask (sig s w : Nat) (hsw : s + w ≤ 32) (hsig : sig < 2 ^ 32) :
    sig &&& not32 ((2 ^ w - 1) <<< s) =
      sig % 2 ^ s + sig / 2 ^ (s + w) * 2 ^ (s + w) := by
  have hlt : sig % 2 ^ s < 2 ^ (s + w) :=
    lt_of_lt_of_le (Nat.mod_lt _ (Nat.two_pow_pos s))
      (Nat.pow_le_pow_right (by norm_num) (Nat.le_add_right s w))
  have hR : sig % 2 ^ s + sig / 2 ^ (s + w) * 2 ^ (s + w)
      = (sig &&& (2 ^ s - 1)) ||| ((sig >>> (s + w)) <<< (s + w)) := by
    rw [Nat.and_pow_two_sub_one_eq_mod, Nat.shiftLeft_eq, Nat.shiftRight_eq_div_pow,
      Nat.or_comm, mul_comm (sig / 2 ^ (s + w)) (2 ^ (s + w)),
      ← Nat.mul_add_lt_is_or hlt (sig / 2 ^ (s + w))]
    ring
  rw [hR]
  apply Nat.eq_of_testBit_eq
  intro i
  have h32 : (0xFFFFFFFF : Nat) = 2 ^ 32 - 1 := by norm_num
  simp only [not32, h32, Nat.testBit_and, Nat.testBit_or, Nat.testBit_xor,
    Nat.testBit_shiftLeft, Nat.testBit_shiftRight, Nat.testBit_two_pow_sub_one]
  by_cases h1 : i < s
  · have c1 : i < 32 := by omega
    have c2 : ¬ s ≤ i := by omega
    have c3 : ¬ s + w ≤ i := by omega
    simp [h1, c1, c2, c3]
  · by_cases h2 : i < s + w
    · have c1 : i < 32 := by omega
      have c2 : s ≤ i := by omega
      have c3 : i - s < w := by omega
      have c4 : ¬ s + w ≤ i := by omega
      simp [h1, h2, c1, c2, c3, c4]
    · have c2 : s ≤ i := by omega
      have c3 : ¬ (i - s < w) := by omega
      have c4 : s + w ≤ i := by omega
      have c5 : s + w + (i - (s + w)) = i := by omega
      by_cases c1 : i < 32
      · simp [h1, c1, c2, c3, c4, c5]
      · have hbit : sig.testBit i = false :=
          Nat.testBit_lt_two_pow
            (lt_of_lt_of_le hsig (Nat.pow_le_pow_right (by norm_num) (by omega)))
        simp [h1, c1, c2, c3, c4, c5, hbit]

/-- Writing a value into a contiguous field is plain arithmetic: the bits
below the field, the value at the field's position, the bits above. -/
theorem setPart_arith (mask s w t sig v : Nat) (h1 : Support.constCtz mask = s)
    (h3 : mask = (2 ^ w - 1) <<< s) (ht : t = s + w) (hsw : t ≤ 32)
    (hsig : sig < 2 ^ 32) (hv : v < 2 ^ w) :
    setSignaturePart mask v sig = sig % 2 ^ s + v * 2 ^ s + sig / 2 ^ t * 2 ^ t := by
  subst ht
  unfold setSignaturePart
  rw [h1, h3, and_not32_mask sig s w hsw hsig, Nat.shiftLeft_eq]
  have hlo : sig % 2 ^ s < 2 ^ s := Nat.mod_lt _ (Nat.two_pow_pos s)
  have ha : sig % 2 ^ s < 2 ^ (s + w) :=
    lt_of_lt_of_le hlo (Nat.pow_le_pow_right (by norm_num) (Nat.le_add_right s w))
  have hmid : 2 ^ s * v + sig % 2 ^ s < 2 ^ (s + w) :=
    calc 2 ^ s * v + sig % 2 ^ s < 2 ^ s * v + 2 ^ s := by exact Nat.add_lt_add_left hlo _
      _ = 2 ^ s * (v + 1) := by ring
      _ ≤ 2 ^ s * 2 ^ w := Nat.mul_le_mul (Nat.le_refl _) (by omega)
      _ = 2 ^ (s + w) := (pow_add 2 s w).symm
  rw [show sig % 2 ^ s + sig / 2 ^ (s + w) * 2 ^ (s + w)
        = 2 ^ (s + w) * (sig / 2 ^ (s + w)) + sig % 2 ^ s from by ring,
    Nat.mul_add_lt_is_or ha (sig / 2 ^ (s + w)),
    Nat.or_assoc, Nat.or_comm (sig % 2 ^ s) (v * 2 ^ s),
    show v * 2 ^ s = 2 ^ s * v from by ring,
    ← Nat.mul_add_lt_is_or hlo v,
    ← Nat.mul_add_lt_is_or hmid (sig / 2 ^ (s + w))]
  ring

/-- The packed memory-operand signature as an arithmetic sum of its
disjoint chunks (flags restricted to bits 13..23, written `2^13 * g`). -/
theorem memSignature_sum (bt it sz g : Nat) (hbt : bt < 2 ^ 5) (hit : it < 2 ^ 5)
    (hg : g < 2 ^ 11) :
    2 ||| bt <<< 3 ||| it <<< 8 ||| sz <<< 24 ||| 2 ^ 13 * g
      = 2 + bt * 2 ^ 3 + it * 2 ^ 8 + g * 2 ^ 13 + sz * 2 ^ 24 := by
  have h1 : (2 : Nat) ||| bt <<< 3 = 2 ^ 3 * bt + 2 := by
    rw [Nat.shiftLeft_eq, Nat.or_comm, mul_comm bt (2 ^ 3),
      ← Nat.mul_add_lt_is_or (show (2 : Nat) < 2 ^ 3 by norm_num) bt]
  have h2 : (2 ^ 3 * bt + 2) ||| it <<< 8 = 2 ^ 8 * it + (2 ^ 3 * bt + 2) := by
    rw [Nat.shiftLeft_eq, Nat.or_comm, mul_comm it (2 ^ 8),
      ← Nat.mul_add_lt_is_or (show 2 ^ 3 * bt + 2 < 2 ^ 8 by omega) it]
  calc 2 ||| bt <<< 3 ||| it <<< 8 ||| sz <<< 24 ||| 2 ^ 13 * g
      = (2 ^ 8 * it + (2 ^ 3 * bt + 2)) ||| sz <<< 24 ||| 2 ^ 13 * g := by
        rw [h1, h2]
    _ = (2 ^ 24 * sz ||| (2 ^ 8 * it + (2 ^ 3 * bt + 2))) ||| 2 ^ 13 * g := by
        rw [Nat.shiftLeft_eq, Nat.or_comm (2 ^ 8 * it + (2 ^ 3 * bt + 2)) (sz * 2 ^ 24),
          mul_comm sz (2 ^ 24)]
    _ = 2 ^ 24 * sz ||| ((2 ^ 8 * it + (2 ^ 3 * bt + 2)) ||| 2 ^ 13 * g) :=
        Nat.or_assoc _ _ _
    _ = 2 ^ 24 * sz ||| (2 ^ 13 * g + (2 ^ 8 * it + (2 ^ 3 * bt + 2))) := by
        rw [Nat.or_comm (2 ^ 8 * it + (2 ^ 3 * bt + 2)) (2 ^ 13 * g),
          ← Nat.mul_add_lt_is_or (show 2 ^ 8 * it + (2 ^ 3 * bt + 2) < 2 ^ 13 by omega) g]
    _ = 2 ^ 24 * sz + (2 ^ 13 * g + (2 ^ 8 * it + (2 ^ 3 * bt + 2))) := by
        rw [← Nat.mul_add_lt_is_or
          (show 2 ^ 13 * g + (2 ^ 8 * it + (2 ^ 3 * bt + 2)) < 2 ^ 24 by omega) sz]
    _ = 2 + bt * 2 ^ 3 + it * 2 ^ 8 + g * 2 ^ 13 + sz * 2 ^ 24 := by ring

/-! ## C6: signature field isolation -/

/-- Claim C6: for every 32-bit operand signature, writing any one of the five
signature fields (kind, register-type, register-group, memory-address-kind,
size) with a value that fits the field's width re-extracts as the value
just written and leaves each of the other fields' bits unchanged. -/
theorem signatureFieldIsolation :
    ∀ sig : Nat, sig < 2 ^ 32 →
      (∀ v : Nat, v < 2 ^ 3 →
        getSignaturePart kSignatureOpMask (setSignaturePart kSignatureOpMask v sig) = v ∧
        getSignaturePart kSignatureRegTypeMask (setSignaturePart kSignatureOpMask v sig) =
          getSignaturePart kSignatureRegTypeMask sig ∧
        getSignaturePart kSignatureRegGroupMask (setSignaturePart kSignatureOpMask v sig) =
          getSignaturePart kSignatureRegGroupMask sig ∧
        getSignaturePart kSignatureMemAddrTypeMask (setSignaturePart kSignatureOpMask v sig) =
          getSignaturePart kSignatureMemAddrTypeMask sig ∧
        getSignaturePart kSignatureSizeMask (setSignaturePart kSignatureOpMask v sig) =
          getSignaturePart kSignatureSizeMask sig) ∧
      (∀ v : Nat, v < 2 ^ 5 →
        getSignaturePart kSignatureRegTypeMask (setSignaturePart kSignatureRegTypeMask v sig) = v ∧
        getSignaturePart kSignatureOpMask (setSignaturePart kSignatureRegTypeMask v sig) =
          getSignaturePart kSignatureOpMask sig ∧
        getSignaturePart kSignatureRegGroupMask (setSignaturePart kSignatureRegTypeMask v sig) =
          getSignaturePart kSignatureRegGroupMask sig ∧
        getSignaturePart kSignatureMemAddrTypeMask (setSignaturePart kSignatureRegTypeMask v sig) =
          getSignaturePart kSignatureMemAddrTypeMask sig ∧
        getSignaturePart kSignatureSizeMask (setSignaturePart kSignatureRegTypeMask v sig) =
          getSignaturePart kSignatureSizeMask sig) ∧
      (∀ v : Nat, v < 2 ^ 4 →
        getSignaturePart kSignatureRegGroupMask (setSignaturePart kSignatureRegGroupMask v sig) = v ∧
        getSignaturePart kSignatureOpMask (setSignaturePart kSignatureRegGroupMask v sig) =
          getSignaturePart kSignatureOpMask sig ∧
        getSignaturePart kSignatureRegTypeMask (setSignaturePart kSignatureRegGroupMask v sig) =
          getSignaturePart kSignatureRegTypeMask sig ∧
        getSignaturePart kSignatureMemAddrTypeMask (setSignaturePart kSignatureRegGroupMask v sig) =
          getSignaturePart kSignatureMemAddrTypeMask sig ∧
        getSignaturePart kSignatureSizeMask (setSignaturePart kSignatureRegGroupMask v sig) =
          getSignaturePart kSignatureSizeMask sig) ∧
      (∀ v : Nat, v < 2 ^ 2 →
        getSignaturePart kSignatureMemAddrTypeMask (setSignaturePart kSignatureMemAddrTypeMask v sig) = v ∧
        getSignaturePart kSignatureOpMask (setSignaturePart kSignatureMemAddrTypeMask v sig) =
          getSignaturePart kSignatureOpMask sig ∧
        getSignaturePart kSignatureRegTypeMask (setSignaturePart kSignatureMemAddrTypeMask v sig) =
          getSignaturePart kSignatureRegTypeMask sig ∧
        getSignaturePart kSignatureRegGroupMask (setSignaturePart kSignatureMemAddrTypeMask v sig) =
          getSignaturePart kSignatureRegGroupMask sig ∧
        getSignaturePart kSignatureSizeMask (setSignaturePart kSignatureMemAddrTypeMask v sig) =
          getSignaturePart kSignatureSizeMask sig) ∧
      (∀ v : Nat, v < 2 ^ 8 →
        getSignaturePart kSignatureSizeMask (setSignaturePart kSignatureSizeMask v sig) = v ∧
        getSignaturePart kSignatureOpMask (setSignaturePart kSignatureSizeMask v sig) =
          getSignaturePart kSignatureOpMask sig ∧
        getSignaturePart kSignatureRegTypeMask (setSignaturePart kSignatureSizeMask v sig) =
          getSignaturePart kSignatureRegTypeMask sig ∧
        getSignaturePart kSignatureRegGroupMask (setSignaturePart kSignatureSizeMask v sig) =
          getSignaturePart kSignatureRegGroupMask sig ∧
        getSignaturePart kSignatureMemAddrTypeMask (setSignaturePart kSignatureSizeMask v sig) =
          getSignaturePart kSignatureMemAddrTypeMask sig) := by
  intro sig hsig
  refine ⟨?_, ?_, ?_, ?_, ?_⟩
  · intro v hv
    rw [setPart_arith kSignatureOpMask 0 3 3 sig v (by decide) (by decide) rfl
      (by decide) hsig hv]
    simp only [gp_op, gp_regType, gp_regGroup, gp_memAddrType, gp_size]
    omega
  · intro v hv
    rw [setPart_arith kSignatureRegTypeMask 3 5 8 sig v (by decide) (by decide) rfl
      (by decide) hsig hv]
    simp only [gp_op, gp_regType, gp_regGroup, gp_memAddrType, gp_size]
    omega
  · intro v hv
    rw [setPart_arith kSignatureRegGroupMask 8 4 12 sig v (by decide) (by decide) rfl
      (by decide) hsig hv]
    simp only [gp_op, gp_regType, gp_regGroup, gp_memAddrType, gp_size]
    omega
  · intro v hv
    rw [setPart_arith kSignatureMemAddrTypeMask 13 2 15 sig v (by decide) (by decide) rfl
      (by decide) hsig hv]
    simp only [gp_op, gp_regType, gp_regGroup, gp_memAddrType, gp_size]
    omega
  · intro v hv
    rw [setPart_arith kSignatureSizeMask 24 8 32 sig v (by decide) (by decide) rfl
      (by decide) hsig hv]
    simp only [gp_op, gp_regType, gp_regGroup, gp_memAddrType, gp_size]
    omega

/-- Witness for C6: writing register-type 9 into a fully populated
signature re-extracts as 9 and leaves the size byte intact. -/
theorem signatureFieldIsolation_witness :
    getSignaturePart kSignatureRegTypeMask
      (setSignaturePart kSignatureRegTypeMask 9 0x12345678) = 9 ∧
    getSignaturePart kSignatureSizeMask
      (setSignaturePart kSignatureRegTypeMask 9 0x12345678) =
      getSignaturePart kSignatureSizeMask 0x12345678 := by
  have h := (signatureFieldIsolation 0x12345678 (by decide)).2.1 9 (by decide)
  exact ⟨h.1, h.2.2.2.2⟩

/-! ## C3: memory operand construction round-trips its decomposed fields -/

/-- Claim C3: constructing a memory operand from valid decomposed fields
(base/index types of five bits, 32-bit ids, a signed 32-bit offset, an
8-bit size, and flags confined to the signature bits not used by the
other fields) re-extracts every field exactly. -/
theorem memDecomposedRoundTrip :
    ∀ d : Decomposed, d.baseType < 2 ^ 5 → d.indexType < 2 ^ 5 →
      d.baseId < 2 ^ 32 → d.indexId < 2 ^ 32 →
      -(2 ^ 31) ≤ d.offset → d.offset < 2 ^ 31 → d.size < 2 ^ 8 →
      d.flags < 2 ^ 32 →
      d.flags &&& (kSignatureOpMask ||| kSignatureMemBaseTypeMask |||
        kSignatureMemIndexTypeMask ||| kSignatureSizeMask) = 0 →
      (BaseMem.baseType (BaseMem.ofDecomposed d) = d.baseType ∧
       BaseMem.indexType (BaseMem.ofDecomposed d) = d.indexType ∧
       BaseMem.baseId (BaseMem.ofDecomposed d) = d.baseId ∧
       BaseMem.indexId (BaseMem.ofDecomposed d) = d.indexId ∧
       BaseMem.offsetLo32 (BaseMem.ofDecomposed d) = d.offset ∧
       Operand_.size (BaseMem.ofDecomposed d) = d.size) := by
  rintro ⟨bt, bid, it, iid, off, sz, fl⟩ hbt hit hbid hiid ho1 ho2 hsz hfl hfm
  simp only at hbt hit hbid hiid ho1 ho2 hsz hfl hfm
  have hfm' : fl &&& 0xFF001FFF = 0 := by
    have e : (kSignatureOpMask ||| kSignatureMemBaseTypeMask |||
        kSignatureMemIndexTypeMask ||| kSignatureSizeMask) = 0xFF001FFF := by decide
    rw [e] at hfm
    exact hfm
  have h13 : fl % 2 ^ 13 = 0 := by
    have h := congrArg (fun x => x &&& (2 ^ 13 - 1)) hfm'
    simp only [Nat.zero_and] at h
    rw [Nat.and_assoc, show (0xFF001FFF : Nat) &&& (2 ^ 13 - 1) = 2 ^ 13 - 1 by decide,
      Nat.and_pow_two_sub_one_eq_mod] at h
    exact h
  have h24 : fl < 2 ^ 24 := by
    have h := congrArg (fun x => x &&& 0xFF000000) hfm'
    simp only [Nat.zero_and] at h
    rw [Nat.and_assoc, show (0xFF001FFF : Nat) &&& 0xFF000000 = 0xFF000000 by decide] at h
    have hlo : fl % 2 ^ 24 < 2 ^ 24 := Nat.mod_lt _ (by norm_num)
    rw [show fl = 2 ^ 24 * (fl / 2 ^ 24) + fl % 2 ^ 24 by omega,
      Nat.mul_add_lt_is_or hlo, Nat.and_distrib_right] at h
    have hlo0 : fl % 2 ^ 24 &&& 0xFF000000 = 0 := by
      rw [← Nat.and_pow_two_sub_one_of_lt_two_pow hlo, Nat.and_assoc,
        show (2 ^ 24 - 1 : Nat) &&& 0xFF000000 = 0 by decide, Nat.and_zero]
    rw [hlo0, Nat.or_zero] at h
    have hhi : fl / 2 ^ 24 < 2 ^ 8 := by omega
    rw [show (0xFF000000 : Nat) = (2 ^ 8 - 1) <<< 24 by decide,
      show 2 ^ 24 * (fl / 2 ^ 24) = (fl / 2 ^ 24) <<< 24 by rw [Nat.shiftLeft_eq]; ring,
      shiftLeft_and, Nat.and_pow_two_sub_one_of_lt_two_pow hhi] at h
    have : fl / 2 ^ 24 = 0 := by
      have h0 := congrArg (fun x => x >>> 24) h
      simp only [Nat.shiftLeft_eq, Nat.shiftRight_eq_div_pow] at h0
      omega
    omega
  obtain ⟨g, hfg, hglt⟩ : ∃ g : Nat, fl = 2 ^ 13 * g ∧ g < 2 ^ 11 :=
    ⟨fl / 2 ^ 13, by omega, by omega⟩
  subst hfg
  simp only [BaseMem.ofDecomposed, BaseMem.baseType, BaseMem.indexType,
    BaseMem.baseId, BaseMem.indexId, BaseMem.offsetLo32, Operand_.size,
    kOpMem, kSignatureMemBaseTypeShift, kSignatureMemIndexTypeShift,
    kSignatureSizeShift]
  rw [memSignature_sum bt it sz g hbt hit hglt]
  simp only [gp_memBaseType, gp_memIndexType, gp_size]
  refine ⟨by omega, by omega, trivial, trivial, ?_, by omega⟩
  have e31 : ((2 : Int) ^ 31) = 2147483648 := by norm_num
  rw [e31] at ho1 ho2
  simp only [toInt32, toUInt32]
  split <;> omega

/-- Witness for C3 at a concrete decomposition with a negative offset and
a reg-home flag bit. -/
theorem memDecomposedRoundTrip_witness :
    BaseMem.baseType (BaseMem.ofDecomposed ⟨6, 5, 7, 3, -42, 8, 0x8000⟩) = 6 ∧
    BaseMem.offsetLo32 (BaseMem.ofDecomposed ⟨6, 5, 7, 3, -42, 8, 0x8000⟩) = -42 := by
  have h := memDecomposedRoundTrip ⟨6, 5, 7, 3, -42, 8, 0x8000⟩ (by decide) (by decide)
    (by decide) (by decide) (by decide) (by decide) (by decide) (by decide) (by decide)
  exact ⟨h.1, h.2.2.2.2.1⟩

end AsmJit
